import Mathlib

/-!
Verification of the betkarma odds-viewer front-end controllers.

Shallow embedding of the three controller variants of this repository:

* `appjs`   — `src/static/app.js` (the "pro-grade" variant with retry, URL
  sync, localStorage persistence and skeleton loading);
* `part000` — `src/unnamed/part_000` (the date-chip variant);
* `part001` — `src/unnamed/part_001` (the day-scroller variant).

JavaScript numbers that carry odds prices and points are embedded as `Int`
(every value exercised by the specification is integral); `null`/`undefined`
is embedded as `Option.none`.  DOM `innerHTML` assignments are embedded as
`String`-valued fields of explicit state records, and the network is embedded
as an explicit response argument (an oracle), so every definition is
executable.
-/

/-! Generic string helpers.

JS string operations used by the sources, embedded structurally so that the
kernel can evaluate them (`String.toLower`/`String.replace` from core are
defined by well-founded recursion on byte positions and do not reduce).
-/

/-- Tests whether `needle` occurs as a contiguous substring of `hay`. -/
def containsSub (hay needle : String) : Bool :=
  go needle.data hay.data
where
  go (needle : List Char) : List Char → Bool
    | [] => needle.isPrefixOf []
    | c :: t => needle.isPrefixOf (c :: t) || go needle t

/-- JS `String.prototype.toLowerCase`, per-character (the sources only apply
it to key names such as `"R"`, where per-character lowering agrees with JS). -/
def lowerStr (s : String) : String := ⟨s.data.map Char.toLower⟩

/-- JS `String.prototype.toUpperCase`, per-character (applied to bookmaker
keys, which are ASCII). -/
def upperStr (s : String) : String := ⟨s.data.map Char.toUpper⟩

/-! Embedding of src/static/app.js — the pro-grade controller variant. -/

namespace appjs

/-- Embedding of `escapeHTML` (app.js:190-197).  The source chains
`replaceAll("&","&amp;")`, `replaceAll("<","&lt;")`, `replaceAll(">","&gt;")`,
`replaceAll('"',"&quot;")`, `replaceAll("'","&#39;")`.  Because every pattern
is a single character, the ampersand is replaced first, and no later pattern
occurs in an earlier replacement text, the chain is the per-character
expansion below. -/
def escapeChar (c : Char) : String :=
  if c == '&' then ("&amp;")
  else if c == '<' then ("&lt;")
  else if c == '>' then ("&gt;")
  else if c == Char.ofNat 34 then ("&quot;")
  else if c == Char.ofNat 39 then ("&#39;")
  else String.singleton c

def escapeHTML (s : String) : String :=
  String.join (s.data.map escapeChar)

/-- Embedding of `fmtSign` (app.js:116-121).  On numeric inputs: `null`/`undefined` (and
`NaN`, unreachable for the integral odds values embedded here) give `"-"`;
positive numbers are prefixed with `+`; other numbers print as-is. -/
def fmtSign (num : Option Int) : String :=
  match num with
  | none => "-"
  | some n => if 0 < n then ("+") ++ toString n else toString n

/-- Embedding of `clsDiff` (app.js:123-128). -/
def clsDiff (val : Option Int) : String :=
  match val with
  | none => ""
  | some n => if 0 < n then ("diff-pos") else if n < 0 then ("diff-neg") else ("")

/-- Embedding of `safeJoinPointAndPrice` (app.js:130-136).  `hasPrice` keeps the source's
`` `${price}` !== "" `` test (identically true for numeric prices, see
`intToString_ne_empty`). -/
def safeJoinPointAndPrice (point price : Option Int) : String :=
  let hasPoint : Bool := point.isSome
  let hasPrice : Bool :=
    match price with
    | none => false
    | some v => decide (toString v ≠ "")
  if !hasPoint && !hasPrice then ("-")
  else if hasPrice then
    (match point with | some p => toString p | none => "-")
      ++ " (" ++ (match price with | some v => toString v | none => "") ++ ")"
  else
    match point with | some p => toString p | none => "-"

/-- The moneyline Open/Live cell body `${r.open_price ?? "-"}`
(app.js:209-210): the raw value, with `"-"` for a missing one. -/
def mlPriceCell (p : Option Int) : String :=
  match p with
  | none => "-"
  | some v => toString v

end appjs

/-! Embedding of the app.js data model and controller state.  DOM containers
(`#content`, `#asOf`) and the three interactive controls are the fields of
`appjs.UIState`; the network is passed to `loadOds`-style functions as an
explicit response value. -/

namespace appjs

structure MoneylineRow where
  team : Option String
  open_price : Option Int
  live_price : Option Int
  diff_price : Option Int
deriving DecidableEq

structure PointRow where
  team : Option String
  open_point : Option Int
  open_price : Option Int
  live_point : Option Int
  live_price : Option Int
  diff_point : Option Int
deriving DecidableEq

structure Game where
  home_team : Option String
  away_team : Option String
  commence_time_est : Option String
  moneyline : Option (List MoneylineRow)
  spreads : Option (List PointRow)
  totals : Option (List PointRow)
deriving DecidableEq

structure OddsPayload where
  as_of_est : String
  bookmaker : Option String
  games : Option (List Game)
deriving DecidableEq

/-- The controller-visible UI state: `AppState.loading`, the `disabled` flags
of the three controls, `#content.innerHTML`, `#asOf.textContent`, and
`AppState.lastPayload`. -/
structure UIState where
  loading : Bool
  refreshDisabled : Bool
  sportSelectDisabled : Bool
  bookmakerSelectDisabled : Bool
  content : String
  asOf : String
  lastPayload : Option OddsPayload
deriving DecidableEq

/-- The initial page state: nothing loading, controls enabled, containers
empty. -/
def init0 : UIState :=
  { loading := false, refreshDisabled := false, sportSelectDisabled := false,
    bookmakerSelectDisabled := false, content := "", asOf := "", lastPayload := none }

/-- One row of `renderMoneylineRows` (app.js:202-216); whitespace of the
template literal elided. -/
def mlRowHTML (r : MoneylineRow) : String :=
  "<div class=\"row\" role=\"row\">"
    ++ "<div class=\"cell team\" role=\"cell\">" ++ escapeHTML (r.team.getD ("-")) ++ "</div>"
    ++ "<div class=\"cell\" role=\"cell\">Open</div><div class=\"cell\" role=\"cell\">"
    ++ mlPriceCell r.open_price ++ "</div>"
    ++ "<div class=\"cell\" role=\"cell\">Live</div><div class=\"cell\" role=\"cell\">"
    ++ mlPriceCell r.live_price ++ "</div>"
    ++ "<div class=\"cell\" role=\"cell\">Diff</div><div class=\"cell " ++ clsDiff r.diff_price
    ++ "\" role=\"cell\">" ++ fmtSign r.diff_price ++ "</div>"
    ++ "</div>"

/-- One row of `renderSpreadRows`/`renderTotalRows` (app.js:218-252), whose
bodies are identical. -/
def pointRowHTML (r : PointRow) : String :=
  "<div class=\"row\" role=\"row\">"
    ++ "<div class=\"cell team\" role=\"cell\">" ++ escapeHTML (r.team.getD ("-")) ++ "</div>"
    ++ "<div class=\"cell\" role=\"cell\">Open</div><div class=\"cell\" role=\"cell\">"
    ++ safeJoinPointAndPrice r.open_point r.open_price ++ "</div>"
    ++ "<div class=\"cell\" role=\"cell\">Live</div><div class=\"cell\" role=\"cell\">"
    ++ safeJoinPointAndPrice r.live_point r.live_price ++ "</div>"
    ++ "<div class=\"cell\" role=\"cell\">Diff</div><div class=\"cell " ++ clsDiff r.diff_point
    ++ "\" role=\"cell\">" ++ fmtSign r.diff_point ++ "</div>"
    ++ "</div>"

/-- Modelled from the spec: the markup of one game card.  The renderer clones
the `#gameCardTpl` template, which lives in `index.html` — a file not present
under `src/` — fills the matchup and kickoff, and appends the three market row
groups (app.js:266-281).  No claim inspects this string beyond its presence. -/
def gameCardHTML (g : Game) : String :=
  "<section class=\"game-card\"><div class=\"game-head\"><div class=\"matchup\">"
    ++ (g.away_team.getD ("undefined")) ++ " @ " ++ (g.home_team.getD ("undefined"))
    ++ "</div><div class=\"kickoff\">" ++ (g.commence_time_est.getD ("")) ++ "</div></div>"
    ++ "<div class=\"rows\">" ++ String.join ((g.moneyline.getD []).map mlRowHTML) ++ "</div>"
    ++ "<div class=\"rows\">" ++ String.join ((g.spreads.getD []).map pointRowHTML) ++ "</div>"
    ++ "<div class=\"rows\">" ++ String.join ((g.totals.getD []).map pointRowHTML) ++ "</div>"
    ++ "</section>"

/-- The error notice of `showError` (app.js:182-184). -/
def errorHTML (err : String) : String :=
  "<div class=\"error\">Error loading odds: " ++ escapeHTML err ++ "</div>"

/-- The empty notice of `showEmpty` (app.js:186-188) — note it reuses the
`error` CSS class. -/
def emptyHTML : String :=
  "<div class=\"error\">No games found for your selection.</div>"

def showError (st : UIState) (err : String) : UIState :=
  { st with content := errorHTML err }

def showEmpty (st : UIState) : UIState :=
  { st with content := emptyHTML }

/-- One skeleton placeholder card of `skeletonCards` (app.js:138-163);
inner markup abbreviated to its element skeleton (no claim inspects it). -/
def skeletonCardHTML : String :=
  "<section class=\"game-card skeleton\"><div class=\"game-head\">"
    ++ "<div class=\"matchup sk-bar\"></div><div class=\"kickoff sk-pill\"></div></div>"
    ++ "<div class=\"markets\"></div></section>"

def skeletonCards (count : Nat) : String :=
  String.join (List.replicate count skeletonCardHTML)

/-- Embedding of `showSkeleton` (app.js:165-173): marks loading, replaces the
content with four skeleton cards, and disables all three controls. -/
def showSkeleton (st : UIState) : UIState :=
  { st with loading := true, content := skeletonCards 4, asOf := "Loading…",
            refreshDisabled := true, sportSelectDisabled := true,
            bookmakerSelectDisabled := true }

/-- Embedding of `clearSkeleton` (app.js:175-180): clears loading and
re-enables the controls (content is left as-is). -/
def clearSkeleton (st : UIState) : UIState :=
  { st with loading := false, refreshDisabled := false,
            sportSelectDisabled := false, bookmakerSelectDisabled := false }

/-- The `#asOf` line set by `renderGames` (app.js:256). -/
def asOfLine (p : OddsPayload) : String :=
  "As of " ++ p.as_of_est ++ " — " ++ upperStr (p.bookmaker.getD (""))

/-- Embedding of `renderGames` (app.js:254-284): resets the container, sets
the as-of line, and either shows the empty notice or one card per game. -/
def renderGames (st : UIState) (p : OddsPayload) : UIState :=
  let st1 := { st with content := "", asOf := asOfLine p }
  let games := p.games.getD []
  if games.length = 0 then showEmpty st1
  else { st1 with content := String.join (games.map gameCardHTML) }

/-- Embedding of `loadOdds` (app.js:327-345).  The URL is built from the
selection and handed to `fetchJSON`; here the settled response for that
request is the explicit `response` argument (`refresh` only toggles the
`&refresh=1` query fragment).  The `try/catch/finally` shape is kept: render
or show the error, then always `clearSkeleton`. -/
def loadOdds (st : UIState) (refresh : Bool) (response : Except String OddsPayload) : UIState :=
  let _ := refresh
  let st1 := showSkeleton st
  match response with
  | .ok payload => clearSkeleton (renderGames { st1 with lastPayload := some payload } payload)
  | .error err => clearSkeleton (showError st1 err)

end appjs

namespace appjs

/-- The UI-mutating operations of the controller, as a step relation:
skeleton display, skeleton clearing, a complete `loadOdds` round
(with an arbitrary settled response), a render, an error display and an
empty display.  `loadOdds`'s internal intermediate state is reachable through
the `skeleton` step. -/
inductive Step : UIState → UIState → Prop
  | skeleton (st : UIState) : Step st (showSkeleton st)
  | clear (st : UIState) : Step st (clearSkeleton st)
  | odds (st : UIState) (refresh : Bool) (r : Except String OddsPayload) :
      Step st (loadOdds st refresh r)
  | render (st : UIState) (p : OddsPayload) : Step st (renderGames st p)
  | err (st : UIState) (e : String) : Step st (showError st e)
  | empty (st : UIState) : Step st (showEmpty st)

/-- States reachable from an initial state through the controller's
operations. -/
inductive Reachable (init : UIState) : UIState → Prop
  | refl : Reachable init init
  | step {st st' : UIState} : Reachable init st → Step st st' → Reachable init st'

end appjs

namespace appjs

/-- A keyboard event as seen by the keydown listener (app.js:369-374). -/
structure KeyEvent where
  key : String
  metaKey : Bool
  ctrlKey : Bool
  altKey : Bool
  shiftKey : Bool
deriving DecidableEq

/-- The guard of the keydown listener (app.js:370):
`e.key.toLowerCase() === "r" && !e.metaKey && !e.ctrlKey && !e.altKey` —
note `shiftKey` is not consulted. -/
def refreshKeyCond (e : KeyEvent) : Bool :=
  (lowerStr e.key == "r") && !e.metaKey && !e.ctrlKey && !e.altKey

/-- The refresh control's click handler (app.js:350-352):
`loadOdds({ refresh: true })`. -/
def refreshClick (st : UIState) (r : Except String OddsPayload) : UIState :=
  loadOdds st true r

/-- The keydown listener (app.js:369-374): when the guard holds it calls
`refreshBtn.click()`, i.e. exactly the refresh control's handler. -/
def keydownStep (st : UIState) (e : KeyEvent) (r : Except String OddsPayload) : UIState :=
  if refreshKeyCond e then refreshClick st r else st

end appjs

/-! Claim C2 — the fetchJSON retry ladder of app.js. -/

namespace appjs

/-- The retry-delay table `BACKOFF_MS` (app.js:32). -/
def BACKOFF_MS : List Nat := [0, 500, 1200]

/-- The possible outcomes of one underlying `fetch` attempt as seen by
`fetchJSON` (app.js:53-74): the transport rejects (`netFail`), the response
status is not ok (`httpFail`, which makes the source throw
`` `HTTP ${res.status} ${text}` ``), or the response is ok and `res.json()`
settles with a parsed payload or a parse error (`okBody`). -/
inductive FetchOutcome (α : Type) where
  | netFail (err : String)
  | httpFail (status : Nat) (body : String)
  | okBody (parsed : Except String α)

/-- Whether the outcome throws inside the `try` block — only then does the
`catch` and hence the retry ladder engage.  An `okBody` outcome is returned
as `return res.json()` without `await`, so its rejection bypasses the
`catch`. -/
def retriable {α : Type} : FetchOutcome α → Bool
  | .okBody _ => false
  | .netFail _ => true
  | .httpFail _ _ => true

/-- The error thrown inside the `try` block, if any (app.js:62-64). -/
def attemptError {α : Type} : FetchOutcome α → Option String
  | .netFail e => some e
  | .httpFail status body => some ("HTTP " ++ toString status ++ " " ++ body)
  | .okBody _ => none

/-- Embedding of `fetchJSON` (app.js:53-74).  `oracle i` is the outcome of the
`i`-th underlying fetch of this logical request.  The result records the
settled promise, the list of delays slept (`sleep(BACKOFF_MS[attempt + 1])`),
and the number of underlying fetch calls made.  A thrown error retries while
`attempt < BACKOFF_MS.length - 1`; an `okBody` outcome — parse error
included — is returned directly. -/
def fetchJSON {α : Type} (oracle : Nat → FetchOutcome α) (attempt : Nat) :
    Except String α × List Nat × Nat :=
  match oracle attempt with
  | .okBody parsed => (parsed, [], 1)
  | .netFail e =>
      if attempt < BACKOFF_MS.length - 1 then
        let t := fetchJSON oracle (attempt + 1)
        (t.1, BACKOFF_MS.getD (attempt + 1) 0 :: t.2.1, t.2.2 + 1)
      else (.error e, [], 1)
  | .httpFail status body =>
      if attempt < BACKOFF_MS.length - 1 then
        let t := fetchJSON oracle (attempt + 1)
        (t.1, BACKOFF_MS.getD (attempt + 1) 0 :: t.2.1, t.2.2 + 1)
      else (.error ("HTTP " ++ toString status ++ " " ++ body), [], 1)
termination_by BACKOFF_MS.length - attempt
decreasing_by all_goals (simp [BACKOFF_MS] at *; omega)

/-- A concrete oracle that fails on the first two attempts (once at the
transport, once with a 502) and succeeds on the third. -/
def failFailOk : Nat → FetchOutcome Nat := fun i =>
  if i = 0 then .netFail ("ECONNRESET")
  else if i = 1 then .httpFail 502 ("bad gateway")
  else .okBody (.ok 42)

end appjs

/-! Claim C7 — restoring the prior sport/bookmaker selection (app.js). -/

namespace appjs

/-- Hardcoded fallback `DEFAULT_SPORT` (app.js:33). -/
def DEFAULT_SPORT : String := "baseball_mlb"

/-- Hardcoded fallback `DEFAULT_BOOK` (app.js:34). -/
def DEFAULT_BOOK : String := "betonlineag"

/-- One entry of the `/sports` payload: `{ key, label }` (app.js:292-294). -/
structure SportEntry where
  key : String
  label : String
deriving DecidableEq

/-- JS truthiness of a possibly-absent string: `null`/`undefined` and `""`
are falsy. -/
def truthyStr : Option String → Bool
  | none => false
  | some s => !(s == "")

/-- The `s || null` normalization of `loadPrefs` (app.js:88-99): a stored
empty string reads back as `null`. -/
def prefOrNone (raw : Option String) : Option String :=
  match raw with
  | none => none
  | some s => if s == "" then none else some s

/-- The pick chain of `loadSports` (app.js:299-303):
`(qsSport && sports.some(s => s.key === qsSport) && qsSport) ||
 (lsSport && sports.some(s => s.key === lsSport) && lsSport) ||
 (sports[0] && sports[0].key) || DEFAULT_SPORT`. -/
def pickSportKey (qsSport lsSport : Option String) (sports : List SportEntry) : String :=
  if truthyStr qsSport && sports.any (fun s => s.key == qsSport.getD ("")) then qsSport.getD ("")
  else if truthyStr lsSport && sports.any (fun s => s.key == lsSport.getD ("")) then lsSport.getD ("")
  else
    match sports.head? with
    | some s0 => if s0.key == "" then DEFAULT_SPORT else s0.key
    | none => DEFAULT_SPORT

/-- The pick chain of `loadBookmakers` (app.js:318-321):
`(qsBook && books.includes(qsBook) && qsBook) ||
 (lsBook && books.includes(lsBook) && lsBook) || (books[0] || DEFAULT_BOOK)`. -/
def pickBookKey (qsBook lsBook : Option String) (books : List String) : String :=
  if truthyStr qsBook && books.contains (qsBook.getD ("")) then qsBook.getD ("")
  else if truthyStr lsBook && books.contains (lsBook.getD ("")) then lsBook.getD ("")
  else
    match books.head? with
    | some b0 => if b0 == "" then DEFAULT_BOOK else b0
    | none => DEFAULT_BOOK

/-- The selection-relevant state: `AppState.sports/books/selectedSport/
selectedBook` and the two select elements' values. -/
structure SelState where
  sports : List SportEntry
  books : List String
  selectedSport : Option String
  selectedBook : Option String
  sportSelectValue : String
  bookSelectValue : String
deriving DecidableEq

/-- Embedding of `loadSports` (app.js:289-307): `data.sports || []` becomes
the sport list, the pick chain runs against the URL parameter and the
(normalized) persisted preference, and both `AppState.selectedSport` and the
select element's value are set to the pick. -/
def loadSports (st : SelState) (data : Option (List SportEntry))
    (qsSport rawSport : Option String) : SelState :=
  let sports := data.getD []
  let pick := pickSportKey qsSport (prefOrNone rawSport) sports
  { st with sports := sports, selectedSport := some pick, sportSelectValue := pick }

/-- Embedding of `loadBookmakers` (app.js:309-325). -/
def loadBookmakers (st : SelState) (data : Option (List String))
    (qsBook rawBook : Option String) : SelState :=
  let books := data.getD []
  let pick := pickBookKey qsBook (prefOrNone rawBook) books
  { st with books := books, selectedBook := some pick, bookSelectValue := pick }

/-- The restore priority in the spec's words: the URL parameter if it names an
offered value, else the persisted preference if it names an offered value,
else the first offered value, else the hardcoded default. -/
def specPick (urlParam pref : Option String) (offered : List String) (dflt : String) : String :=
  if (urlParam.map (offered.contains ·)).getD false then urlParam.getD ("")
  else if (pref.map (offered.contains ·)).getD false then pref.getD ("")
  else offered.head?.getD dflt

end appjs


namespace appjs

/-- A fresh selection state (no lists loaded, nothing selected). -/
def selInit : SelState :=
  { sports := [], books := [], selectedSport := none, selectedBook := none,
    sportSelectValue := "", bookSelectValue := "" }

end appjs

/-! Embedding of src/unnamed/part_000 — the date-chip variant. -/

namespace part000

/-- Embedding of `safe` (part_000:173): `(s ?? "").toString()` — no HTML escaping. -/
def safe (s : Option String) : String := s.getD ("")

/-- Embedding of `fmt` (part_000:171): em-dash for a missing value, `String(v)` otherwise. -/
def fmt (v : Option Int) : String :=
  match v with
  | none => "—"
  | some n => toString n

/-- Embedding of `signed` (part_000:172) on numeric inputs: em-dash for missing, `+`
prefix for positive. -/
def signed (v : Option Int) : String :=
  match v with
  | none => "—"
  | some n => if 0 < n then ("+") ++ toString n else toString n

/-- One moneyline `<tr>` from `renderCard` (part_000:95-106): team inserted
via `safe` (unescaped), open and diff are literal em-dashes, live via `fmt`.
Whitespace of the template literal is kept. -/
def mlRowHTML (team : Option String) (live_price : Option Int) : String :=
  "<tr>\n      <td>" ++ safe team ++ "</td>\n      <td class=\"num\">" ++ "—"
    ++ "</td>\n      <td class=\"num\">" ++ fmt live_price
    ++ "</td>\n      <td class=\"num\">" ++ "—" ++ "</td>\n    </tr>"

/-- The spread Live cell of `renderCard` (part_000:110-111):
`(lp != null && lprice != null) ? `${signed(lp)} (${fmt(lprice)})` : "—"`. -/
def spreadLiveCell (lp lprice : Option Int) : String :=
  match lp, lprice with
  | some p, some q => signed (some p) ++ " (" ++ fmt (some q) ++ ")"
  | some _, none => "—"
  | none, _ => "—"

end part000

/-! Embedding of src/unnamed/part_001 — the day-scroller variant. -/

namespace part001

/-- Embedding of `fmtAmerican` (part_001:30): `v == null ? "-" : (v > 0 ? `+${v}` : `${v}`)`. -/
def fmtAmerican (v : Option Int) : String :=
  match v with
  | none => "-"
  | some n => if 0 < n then ("+") ++ toString n else toString n

/-- Embedding of `fmtPoint` (part_001:31): same shape on numeric input after `Number(v)`. -/
def fmtPoint (v : Option Int) : String :=
  match v with
  | none => "-"
  | some n => if 0 < n then ("+") ++ toString n else toString n

/-- The diff class expression of `renderGameHTML` (part_001:123):
`typeof diff === "number" ? (diff < 0 ? "neg" : diff > 0 ? "pos" : "zero") : ""`. -/
def diffCls (d : Option Int) : String :=
  match d with
  | none => ""
  | some n => if n < 0 then ("neg") else if 0 < n then ("pos") else ("zero")

/-- The diff text expression of `renderGameHTML` (part_001:128):
`diff == null ? "-" : `${diff > 0 ? "+" : ""}${diff}``. -/
def diffTxt (d : Option Int) : String :=
  match d with
  | none => "-"
  | some n => (if 0 < n then ("+") else ("")) ++ toString n

/-- A spread/total Open (or Live) cell of `renderGameHTML` (part_001:137-138,
150-151): `${fmtPoint(point)} (${fmtAmerican(price)})` — both components
always shown, each falling back to `"-"` on its own. -/
def pointCell (pt pr : Option Int) : String :=
  fmtPoint pt ++ " (" ++ fmtAmerican pr ++ ")"

/-- One moneyline row of `renderGameHTML` (part_001:121-129): the `team` key
from `Object.entries(g.moneyline)` is interpolated unescaped. -/
def mlCols (team : String) (openP live diff : Option Int) : String :=
  "\n      <div class=\"col\">" ++ team
    ++ "</div>\n      <div class=\"col\">" ++ fmtAmerican openP
    ++ "</div>\n      <div class=\"col\">" ++ fmtAmerican live
    ++ "</div>\n      <div class=\"col " ++ diffCls diff ++ "\">" ++ diffTxt diff
    ++ "</div>\n    "

end part001


/-! Helper lemmas. -/

/-! Decimal string representations are never empty.

Needed because `app.js`'s `safeJoinPointAndPrice` tests `` `${price}` !== "" ``:
for numeric prices that test is identically true, which we prove rather than
assume. -/

theorem toDigitsCore_ne_nil (b fuel n : Nat) (ds : List Char) (h : ds ≠ []) :
    Nat.toDigitsCore b fuel n ds ≠ [] := by
  induction fuel generalizing n ds with
  | zero => simpa [Nat.toDigitsCore] using h
  | succ fuel ih =>
    simp only [Nat.toDigitsCore]
    split
    · simp
    · exact ih _ _ (by simp)

theorem natRepr_ne_empty (n : Nat) : Nat.repr n ≠ "" := by
  have h : Nat.toDigits 10 n ≠ [] := by
    simp only [Nat.toDigits, Nat.toDigitsCore]
    split
    · simp
    · exact toDigitsCore_ne_nil _ _ _ _ (by simp)
  intro he
  exact h (congrArg String.data he)

theorem intToString_ne_empty (i : Int) : toString i ≠ "" := by
  cases i with
  | ofNat m => exact natRepr_ne_empty m
  | negSucc m =>
    show ("-" ++ toString (m + 1)) ≠ ""
    intro h
    have h2 := congrArg String.data h
    rw [String.data_append] at h2
    exact absurd (List.append_eq_nil.mp h2).1 (by decide)

namespace appjs

theorem fetchJSON_okBody {α : Type} (oracle : Nat → FetchOutcome α) (attempt : Nat)
    (p : Except String α) (h : oracle attempt = .okBody p) :
    fetchJSON oracle attempt = (p, [], 1) := by
  conv_lhs => rw [fetchJSON.eq_def]
  rw [h]

theorem fetchJSON_last {α : Type} (oracle : Nat → FetchOutcome α) (attempt : Nat)
    (ha : ¬ attempt < BACKOFF_MS.length - 1) (e : String)
    (h : attemptError (oracle attempt) = some e) :
    fetchJSON oracle attempt = (.error e, [], 1) := by
  conv_lhs => rw [fetchJSON.eq_def]
  cases ho : oracle attempt with
  | okBody p => rw [ho] at h; simp [attemptError] at h
  | netFail e2 =>
    rw [ho] at h
    simp only [attemptError, Option.some.injEq] at h
    subst h
    simp [ha]
  | httpFail s b =>
    rw [ho] at h
    simp only [attemptError, Option.some.injEq] at h
    subst h
    simp [ha]

theorem fetchJSON_retry {α : Type} (oracle : Nat → FetchOutcome α) (attempt : Nat)
    (ha : attempt < BACKOFF_MS.length - 1) (h : retriable (oracle attempt) = true) :
    fetchJSON oracle attempt
      = ((fetchJSON oracle (attempt + 1)).1,
         BACKOFF_MS.getD (attempt + 1) 0 :: (fetchJSON oracle (attempt + 1)).2.1,
         (fetchJSON oracle (attempt + 1)).2.2 + 1) := by
  conv_lhs => rw [fetchJSON.eq_def]
  cases ho : oracle attempt with
  | okBody p => rw [ho] at h; simp [retriable] at h
  | netFail e2 => simp [ha]
  | httpFail s b => simp [ha]

theorem retriable_of_attemptError {α : Type} (o : FetchOutcome α) (e : String)
    (h : attemptError o = some e) : retriable o = true := by
  cases o with
  | okBody p => simp [attemptError] at h
  | netFail e2 => rfl
  | httpFail s b => rfl

theorem okBody_of_not_retriable {α : Type} (o : FetchOutcome α)
    (h : retriable o = false) : ∃ p, o = .okBody p := by
  cases o with
  | okBody p => exact ⟨p, rfl⟩
  | netFail e2 => simp [retriable] at h
  | httpFail s b => simp [retriable] at h

theorem fetchJSON_calls_2 {α : Type} (oracle : Nat → FetchOutcome α) :
    (fetchJSON oracle 2).2.2 = 1 := by
  cases ho : oracle 2 with
  | okBody p => rw [fetchJSON_okBody oracle 2 p ho]
  | netFail e => rw [fetchJSON_last oracle 2 (by decide) e (by rw [ho]; rfl)]
  | httpFail s b =>
    rw [fetchJSON_last oracle 2 (by decide) ("HTTP " ++ toString s ++ " " ++ b) (by rw [ho]; rfl)]

theorem fetchJSON_calls_1 {α : Type} (oracle : Nat → FetchOutcome α) :
    (fetchJSON oracle 1).2.2 = if retriable (oracle 1) then 2 else 1 := by
  cases hr : retriable (oracle 1) with
  | false =>
    obtain ⟨p, hp⟩ := okBody_of_not_retriable _ hr
    rw [fetchJSON_okBody oracle 1 p hp]
    rfl
  | true =>
    rw [fetchJSON_retry oracle 1 (by decide) hr]
    simp [fetchJSON_calls_2]

theorem fetchJSON_calls_0 {α : Type} (oracle : Nat → FetchOutcome α) :
    (fetchJSON oracle 0).2.2
      = if retriable (oracle 0) then (if retriable (oracle 1) then 3 else 2) else 1 := by
  cases hr : retriable (oracle 0) with
  | false =>
    obtain ⟨p, hp⟩ := okBody_of_not_retriable _ hr
    rw [fetchJSON_okBody oracle 0 p hp]
    rfl
  | true =>
    rw [fetchJSON_retry oracle 0 (by decide) hr]
    simp only []
    rw [fetchJSON_calls_1]
    cases retriable (oracle 1) <;> simp

end appjs

theorem any_key_eq_contains_map (sports : List appjs.SportEntry) (q : String) :
    sports.any (fun s => s.key == q) = (sports.map appjs.SportEntry.key).contains q := by
  rw [Bool.eq_iff_iff, List.any_eq_true, List.contains_eq_any_beq, List.any_eq_true]
  constructor
  · rintro ⟨x, hx, hk⟩
    have he : x.key = q := by simpa using hk
    exact ⟨x.key, List.mem_map_of_mem _ hx, by simp [he]⟩
  · rintro ⟨k, hk, he⟩
    obtain ⟨x, hx, rfl⟩ := List.mem_map.mp hk
    have he2 : q = x.key := by simpa using he
    exact ⟨x, hx, by simp [he2]⟩

theorem pickSport_eq_spec (qs ls : Option String) (sports : List appjs.SportEntry)
    (h : ∀ s ∈ sports, s.key ≠ "") :
    appjs.pickSportKey qs ls sports
      = appjs.specPick qs ls (sports.map appjs.SportEntry.key) appjs.DEFAULT_SPORT := by
  have hco : ∀ v : Option String,
      (appjs.truthyStr v && sports.any (fun s => s.key == v.getD ("")))
        = (v.map ((sports.map appjs.SportEntry.key).contains ·)).getD false := by
    intro v
    cases v with
    | none => rfl
    | some s =>
      by_cases hs : s = ""
      · subst hs
        simp [appjs.truthyStr]
        exact h
      · simp [appjs.truthyStr, hs, any_key_eq_contains_map]
  unfold appjs.pickSportKey appjs.specPick
  rw [hco qs, hco ls]
  split
  · rfl
  · split
    · rfl
    · cases sports with
      | nil => rfl
      | cons a t =>
        have ha : (a.key == "") = false := by
          simpa using h a (List.mem_cons_self a t)
        simp [ha]

theorem pickBook_eq_spec (qs ls : Option String) (books : List String)
    (h : ∀ b ∈ books, b ≠ "") :
    appjs.pickBookKey qs ls books = appjs.specPick qs ls books appjs.DEFAULT_BOOK := by
  have hco : ∀ v : Option String,
      (appjs.truthyStr v && books.contains (v.getD ("")))
        = (v.map (books.contains ·)).getD false := by
    intro v
    cases v with
    | none => rfl
    | some s =>
      by_cases hs : s = ""
      · subst hs
        simp [appjs.truthyStr]
        intro hc
        exact h ("") hc rfl
      · simp [appjs.truthyStr, hs]
  unfold appjs.pickBookKey appjs.specPick
  rw [hco qs, hco ls]
  split
  · rfl
  · split
    · rfl
    · cases books with
      | nil => rfl
      | cons a t =>
        have ha : (a == "") = false := by
          simpa using h a (List.mem_cons_self a t)
        simp [ha]


/-! The claims. -/

/-! Claims C1, C3, C4, C6, C10 — formatter-level properties. -/

/-- C1: the claim says every server-supplied text field inserted into produced
markup is HTML-escaped first.  The code contradicts the spec's stated intent:
`part_000`'s `renderCard` inserts the team through `safe` (a bare string
coercion) and `part_001`'s `renderGameHTML` interpolates the team key raw, so
a team name containing markup appears unescaped in the output; only app.js
escapes (shown by the last two conjuncts). -/
theorem C1_team_fields_inserted_unescaped :
    part000.safe (some ("<img src=x>")) = "<img src=x>"
    ∧ containsSub (part000.mlRowHTML (some ("<img src=x>")) (some 120)) "<img src=x>" = true
    ∧ containsSub (part001.mlCols ("<img src=x>") none (some 120) none) "<img src=x>" = true
    ∧ appjs.escapeHTML ("<img src=x>") = "&lt;img src=x&gt;"
    ∧ containsSub ("<div class=\"cell team\" role=\"cell\">"
        ++ appjs.escapeHTML ("<img src=x>") ++ "</div>") "<img" = false := by
  decide

/-- C3 counterexample: the claim as stated fails — app.js renders a positive
live price without the `+` prefix, and the missing-price placeholder of the
cited formatters is the ASCII hyphen, not the em-dash. -/
theorem C3_placeholder_and_sign_counterexample :
    appjs.mlPriceCell (some 120) = "120" ∧ "120" ≠ "+120"
    ∧ part001.fmtAmerican none = "-" ∧ "-" ≠ "—"
    ∧ part000.fmt (some 120) = "120" := by
  decide

/-- C3 amended: per variant — part_001's `fmtAmerican` follows the sign
convention with `"-"` (hyphen) as the missing placeholder; app.js's moneyline
Open/Live cells render the price as-is (no sign convention) with `"-"` for
missing; part_000's `fmt` renders the price as-is with the em-dash for
missing. -/
theorem C3_moneyline_cells_amended (v : Int) :
    (0 < v → part001.fmtAmerican (some v) = "+" ++ toString v)
    ∧ (v < 0 → part001.fmtAmerican (some v) = toString v)
    ∧ part001.fmtAmerican none = "-"
    ∧ appjs.mlPriceCell (some v) = toString v
    ∧ appjs.mlPriceCell none = "-"
    ∧ part000.fmt (some v) = toString v
    ∧ part000.fmt none = "—" := by
  refine ⟨?_, ?_, rfl, rfl, rfl, rfl, rfl⟩
  · intro h
    show (if 0 < v then ("+") ++ toString v else toString v) = "+" ++ toString v
    rw [if_pos h]
  · intro h
    show (if 0 < v then ("+") ++ toString v else toString v) = toString v
    rw [if_neg (by omega)]

/-- Witness for C3 amended at the spec's example prices. -/
theorem C3_moneyline_cells_amended_witness :
    part001.fmtAmerican (some 120) = "+120"
    ∧ part001.fmtAmerican (some (-110)) = "-110"
    ∧ part001.fmtAmerican none = "-" := by
  refine ⟨?_, ?_, (C3_moneyline_cells_amended 0).2.2.1⟩
  · rw [(C3_moneyline_cells_amended 120).1 (by decide)]; decide
  · rw [(C3_moneyline_cells_amended (-110)).2.1 (by decide)]; decide

/-- C4 counterexample: the claim as stated fails — app.js's
`safeJoinPointAndPrice` does not sign the point (`3`, not `+3`) and uses the
hyphen, not the em-dash, when both parts are absent; part_001 never collapses
an all-absent cell to a placeholder. -/
theorem C4_point_price_counterexample :
    appjs.safeJoinPointAndPrice (some 3) (some (-120)) = "3 (-120)"
    ∧ "3 (-120)" ≠ "+3 (-120)"
    ∧ appjs.safeJoinPointAndPrice none none = "-"
    ∧ "-" ≠ "—"
    ∧ part001.pointCell none none = "- (-)" := by
  decide

/-- C4 amended, over the claim's cited symbols: app.js's
`safeJoinPointAndPrice` combines `"<point> (<price>)"` with the point unsigned
when both are present (`"3 (-120)"`, not `"+3 (-120)"`), renders the point
alone when the price is absent, and renders the hyphen `"-"` (not the
em-dash) when both are absent; part_001's point cells always render
`"<point> (<price>)"` with the point signed through `fmtPoint` and `"-"`
substituted for each missing component, so an all-absent cell renders
`"- (-)"` rather than a placeholder. -/
theorem C4_point_price_amended (p q : Int) :
    appjs.safeJoinPointAndPrice (some p) (some q) = toString p ++ " (" ++ toString q ++ ")"
    ∧ appjs.safeJoinPointAndPrice (some p) none = toString p
    ∧ appjs.safeJoinPointAndPrice none none = "-"
    ∧ (0 < p → part001.pointCell (some p) (some q)
         = "+" ++ toString p ++ " (" ++ part001.fmtAmerican (some q) ++ ")")
    ∧ (p < 0 → part001.pointCell (some p) (some q)
         = toString p ++ " (" ++ part001.fmtAmerican (some q) ++ ")")
    ∧ part001.pointCell (some p) none = part001.fmtPoint (some p) ++ " (-)"
    ∧ part001.pointCell none (some q) = "- (" ++ part001.fmtAmerican (some q) ++ ")"
    ∧ part001.pointCell none none = "- (-)" := by
  have hq : decide (toString q ≠ "") = true := decide_eq_true (intToString_ne_empty q)
  refine ⟨?_, ?_, rfl, ?_, ?_, ?_, ?_, rfl⟩
  · simp [appjs.safeJoinPointAndPrice, hq]
  · simp [appjs.safeJoinPointAndPrice]
  · intro h
    simp [part001.pointCell, part001.fmtPoint, if_pos h]
  · intro h
    have h2 : ¬ 0 < p := by omega
    simp [part001.pointCell, part001.fmtPoint, if_neg h2]
  · simp only [part001.pointCell, part001.fmtAmerican, String.append_assoc]
    congr 1
  · simp [part001.pointCell, part001.fmtPoint]

/-- Witness for C4 amended at the spec's example point row. -/
theorem C4_point_price_amended_witness :
    appjs.safeJoinPointAndPrice (some 3) (some (-120)) = "3 (-120)"
    ∧ part001.pointCell (some 3) (some (-120)) = "+3 (-120)" := by
  constructor
  · rw [(C4_point_price_amended 3 (-120)).1]; decide
  · rw [(C4_point_price_amended 3 (-120)).2.2.2.1 (by decide)]; decide

/-- C6: diff sign and class, confirmed for both variants that render a diff
cell.  The increase class is `diff-pos` (app.js) / `pos` (part_001), the
decrease class `diff-neg` / `neg`, and zero or absent diffs get a class that
is neither (`""` in app.js for both; `"zero"` / `""` in part_001), with zero
consistently rendered as `"0"` in both. -/
theorem C6_diff_sign_class (v : Int) :
    (0 < v → appjs.fmtSign (some v) = "+" ++ toString v ∧ appjs.clsDiff (some v) = "diff-pos"
       ∧ part001.diffTxt (some v) = "+" ++ toString v ∧ part001.diffCls (some v) = "pos")
    ∧ (v < 0 → appjs.fmtSign (some v) = toString v ∧ appjs.clsDiff (some v) = "diff-neg"
       ∧ part001.diffTxt (some v) = toString v ∧ part001.diffCls (some v) = "neg")
    ∧ (appjs.fmtSign (some 0) = "0" ∧ appjs.clsDiff (some 0) = ""
       ∧ part001.diffTxt (some 0) = "0" ∧ part001.diffCls (some 0) = "zero")
    ∧ (appjs.fmtSign none = "-" ∧ appjs.clsDiff none = ""
       ∧ part001.diffTxt none = "-" ∧ part001.diffCls none = "")
    ∧ ("diff-pos" ≠ "diff-neg" ∧ ("" : String) ≠ "diff-pos" ∧ ("" : String) ≠ "diff-neg"
       ∧ "zero" ≠ "pos" ∧ "zero" ≠ "neg" ∧ ("" : String) ≠ "pos" ∧ ("" : String) ≠ "neg") := by
  refine ⟨?_, ?_, by decide, by decide, by decide⟩
  · intro h
    have h2 : ¬ v < 0 := by omega
    exact ⟨by simp [appjs.fmtSign, if_pos h], by simp [appjs.clsDiff, if_pos h],
      by simp [part001.diffTxt, if_pos h], by simp [part001.diffCls, if_pos h, if_neg h2]⟩
  · intro h
    have h2 : ¬ 0 < v := by omega
    exact ⟨by simp [appjs.fmtSign, if_neg h2], by simp [appjs.clsDiff, if_neg h2, if_pos h],
      by simp [part001.diffTxt, if_neg h2], by simp [part001.diffCls, if_pos h]⟩

/-- Witness for C6 at the spec's example diffs 7, -5, 0 and absent. -/
theorem C6_diff_sign_class_witness :
    (appjs.fmtSign (some 7) = "+7" ∧ appjs.clsDiff (some 7) = "diff-pos")
    ∧ (appjs.fmtSign (some (-5)) = "-5" ∧ appjs.clsDiff (some (-5)) = "diff-neg")
    ∧ part001.diffTxt (some 0) = "0" ∧ appjs.fmtSign none = "-" := by
  refine ⟨⟨?_, ((C6_diff_sign_class 7).1 (by decide)).2.1⟩,
    ⟨?_, ((C6_diff_sign_class (-5)).2.1 (by decide)).2.1⟩,
    (C6_diff_sign_class 0).2.2.1.2.2.1, (C6_diff_sign_class 0).2.2.2.1.1⟩
  · rw [((C6_diff_sign_class 7).1 (by decide)).1]; decide
  · rw [((C6_diff_sign_class (-5)).2.1 (by decide)).1]; decide

/-- C10: for a point row with an absent point but present price, app.js's
`safeJoinPointAndPrice` renders a hyphen in the point slot with the price
still parenthesized, distinguishable from the bare placeholder of a fully
empty row. -/
theorem C10_price_only_point_row (p : Int) :
    appjs.safeJoinPointAndPrice none (some p) = "- (" ++ toString p ++ ")"
    ∧ appjs.safeJoinPointAndPrice none (some p) ≠ "-"
    ∧ appjs.safeJoinPointAndPrice none none = "-" := by
  have hp : decide (toString p ≠ "") = true := decide_eq_true (intToString_ne_empty p)
  have h1 : appjs.safeJoinPointAndPrice none (some p) = "- (" ++ toString p ++ ")" := by
    simp [appjs.safeJoinPointAndPrice, hp]
  refine ⟨h1, ?_, rfl⟩
  rw [h1]
  intro h
  have hl := congrArg String.length h
  rw [String.length_append, String.length_append] at hl
  have h3 : ("- (" : String).length = 3 := rfl
  have h4 : (")" : String).length = 1 := rfl
  have h5 : ("-" : String).length = 1 := rfl
  omega

/-- C5 counterexample: the empty-selection notice is not "styled as a distinct,
calmer notice" — `showEmpty` wraps it in the very same `class="error"` div
that `showError` uses; only the text differs. -/
theorem C5_empty_notice_styled_as_error :
    (appjs.renderGames appjs.init0
        { as_of_est := "2024-01-01 10:00 EST", bookmaker := some ("betonlineag"),
          games := some [] }).content = appjs.emptyHTML
    ∧ containsSub appjs.emptyHTML ("class=\"error\"") = true
    ∧ containsSub (appjs.showError appjs.init0 ("boom")).content ("class=\"error\"") = true := by
  decide

/-- C5 amended: for every payload whose games list is empty, the renderer
outputs the single empty-state notice — with its own distinct text and no
game-card, section or table markup — but the notice reuses the `error` CSS
class, i.e. it is styled like an error message. -/
theorem C5_empty_state_amended (st : appjs.UIState) (p : appjs.OddsPayload)
    (h : p.games.getD [] = []) :
    (appjs.renderGames st p).content = appjs.emptyHTML
    ∧ containsSub (appjs.renderGames st p).content ("game-card") = false
    ∧ containsSub (appjs.renderGames st p).content ("<table") = false
    ∧ containsSub (appjs.renderGames st p).content ("<section") = false
    ∧ containsSub (appjs.renderGames st p).content ("class=\"error\"") = true := by
  have hc : (appjs.renderGames st p).content = appjs.emptyHTML := by
    simp [appjs.renderGames, h, appjs.showEmpty]
  refine ⟨hc, ?_, ?_, ?_, ?_⟩ <;> rw [hc] <;> decide

/-- Witness for C5 amended at a concrete empty payload. -/
theorem C5_empty_state_amended_witness :
    (appjs.renderGames appjs.init0
        { as_of_est := "2024-01-01 10:00 EST", bookmaker := some ("betonlineag"),
          games := some [] }).content = appjs.emptyHTML
    ∧ containsSub (appjs.renderGames appjs.init0
        { as_of_est := "2024-01-01 10:00 EST", bookmaker := some ("betonlineag"),
          games := some [] }).content ("game-card") = false := by
  have h := C5_empty_state_amended appjs.init0
    { as_of_est := "2024-01-01 10:00 EST", bookmaker := some ("betonlineag"),
      games := some [] } (by decide)
  exact ⟨h.1, h.2.1⟩

/-- C8: in every reachable controller state, `loading = true` implies all
three controls are disabled (so a second odds fetch cannot be started while
one is in flight); every `loadOdds` invocation — on success or failure —
terminates with `loading = false` and the controls re-enabled; and a failed
`loadOdds` leaves the error notice as the games-area content. -/
theorem C8_loading_invariant :
    (∀ st : appjs.UIState, appjs.Reachable appjs.init0 st → st.loading = true →
       st.refreshDisabled = true ∧ st.sportSelectDisabled = true
         ∧ st.bookmakerSelectDisabled = true)
    ∧ (∀ (st : appjs.UIState) (refresh : Bool) (r : Except String appjs.OddsPayload),
        (appjs.loadOdds st refresh r).loading = false
        ∧ (appjs.loadOdds st refresh r).refreshDisabled = false
        ∧ (appjs.loadOdds st refresh r).sportSelectDisabled = false
        ∧ (appjs.loadOdds st refresh r).bookmakerSelectDisabled = false)
    ∧ (∀ (st : appjs.UIState) (refresh : Bool) (e : String),
        (appjs.loadOdds st refresh (Except.error e)).content = appjs.errorHTML e) := by
  refine ⟨?_, ?_, ?_⟩
  · intro st hr
    induction hr with
    | refl => intro h; exact absurd h (by decide)
    | step _ s ih =>
      cases s with
      | skeleton => intro _; exact ⟨rfl, rfl, rfl⟩
      | clear => intro h; exact absurd h (by simp [appjs.clearSkeleton])
      | odds refresh r =>
        intro h
        cases r with
        | ok p => exact absurd h (by simp [appjs.loadOdds, appjs.clearSkeleton])
        | error e => exact absurd h (by simp [appjs.loadOdds, appjs.clearSkeleton])
      | render p =>
        intro h
        rcases hg : (p.games.getD []).length with _ | n
        · have := ih (by simpa [appjs.renderGames, hg, appjs.showEmpty] using h)
          simpa [appjs.renderGames, hg, appjs.showEmpty] using this
        · have := ih (by simpa [appjs.renderGames, hg] using h)
          simpa [appjs.renderGames, hg] using this
      | err e =>
        intro h
        have := ih (by simpa [appjs.showError] using h)
        simpa [appjs.showError] using this
      | empty =>
        intro h
        have := ih (by simpa [appjs.showEmpty] using h)
        simpa [appjs.showEmpty] using this
  · intro st refresh r
    cases r with
    | ok p => exact ⟨rfl, rfl, rfl, rfl⟩
    | error e => exact ⟨rfl, rfl, rfl, rfl⟩
  · intro st refresh e
    rfl

/-- Witness for C8: the in-flight state after `showSkeleton` is reachable and
has all controls disabled, and a failed `loadOdds` ends not-loading with the
error notice shown. -/
theorem C8_loading_invariant_witness :
    ((appjs.showSkeleton appjs.init0).refreshDisabled = true
      ∧ (appjs.showSkeleton appjs.init0).sportSelectDisabled = true
      ∧ (appjs.showSkeleton appjs.init0).bookmakerSelectDisabled = true)
    ∧ (appjs.loadOdds appjs.init0 true (Except.error ("HTTP 500"))).loading = false
    ∧ (appjs.loadOdds appjs.init0 true (Except.error ("HTTP 500"))).content
        = appjs.errorHTML ("HTTP 500") := by
  refine ⟨C8_loading_invariant.1 (appjs.showSkeleton appjs.init0)
      (appjs.Reachable.step appjs.Reachable.refl (appjs.Step.skeleton appjs.init0)) rfl,
    (C8_loading_invariant.2.1 appjs.init0 true (Except.error ("HTTP 500"))).1,
    C8_loading_invariant.2.2 appjs.init0 true ("HTTP 500")⟩

/-- C9 counterexample: Shift is a modifier key, yet pressing Shift+R (key
`"R"`, `shiftKey = true`) does trigger the refresh — the guard only excludes
Meta, Ctrl and Alt. -/
theorem C9_shift_modifier_still_refreshes :
    appjs.refreshKeyCond
        { key := "R", metaKey := false, ctrlKey := false, altKey := false,
          shiftKey := true } = true
    ∧ appjs.keydownStep appjs.init0
        { key := "R", metaKey := false, ctrlKey := false, altKey := false,
          shiftKey := true } (Except.error ("boom"))
      = appjs.refreshClick appjs.init0 (Except.error ("boom")) := by
  decide

/-- C9 amended: pressing `r`/`R` with none of Meta, Ctrl, Alt held triggers
exactly the refresh control's click action; holding Meta, Ctrl or Alt
suppresses it; the Shift key is not consulted, so Shift+R also triggers the
refresh. -/
theorem C9_refresh_key_amended (st : appjs.UIState) (e : appjs.KeyEvent)
    (r : Except String appjs.OddsPayload) :
    (lowerStr e.key = "r" → e.metaKey = false → e.ctrlKey = false → e.altKey = false →
       appjs.keydownStep st e r = appjs.refreshClick st r)
    ∧ (e.metaKey = true ∨ e.ctrlKey = true ∨ e.altKey = true →
       appjs.keydownStep st e r = st)
    ∧ (∀ b : Bool, appjs.keydownStep st { e with shiftKey := b } r = appjs.keydownStep st e r) := by
  refine ⟨?_, ?_, ?_⟩
  · intro hk hm hc ha
    simp [appjs.keydownStep, appjs.refreshKeyCond, hk, hm, hc, ha]
  · intro hmod
    rcases hmod with h | h | h <;> simp [appjs.keydownStep, appjs.refreshKeyCond, h]
  · intro b
    simp [appjs.keydownStep, appjs.refreshKeyCond]

/-- Witness for C9 amended: plain `R` triggers the refresh action, Ctrl+R
does not. -/
theorem C9_refresh_key_amended_witness :
    appjs.keydownStep appjs.init0
        { key := "R", metaKey := false, ctrlKey := false, altKey := false,
          shiftKey := false } (Except.error ("x"))
      = appjs.refreshClick appjs.init0 (Except.error ("x"))
    ∧ appjs.keydownStep appjs.init0
        { key := "r", metaKey := false, ctrlKey := true, altKey := false,
          shiftKey := false } (Except.error ("x"))
      = appjs.init0 := by
  exact ⟨(C9_refresh_key_amended appjs.init0
      { key := "R", metaKey := false, ctrlKey := false, altKey := false, shiftKey := false }
      (Except.error ("x"))).1 (by decide) rfl rfl rfl,
    (C9_refresh_key_amended appjs.init0
      { key := "r", metaKey := false, ctrlKey := true, altKey := false, shiftKey := false }
      (Except.error ("x"))).2.1 (Or.inr (Or.inl rfl))⟩

/-- C2 counterexample: a parse failure of an OK response is NOT retried —
`fetchJSON` settles with the parse error after a single underlying call,
because `return res.json()` hands the json promise back without `await`, so
its rejection never reaches the `catch` that drives the retry ladder.  This
refutes "retries are applied to every error kind without selectivity". -/
theorem C2_parse_error_not_retried :
    appjs.fetchJSON
        (fun _ => appjs.FetchOutcome.okBody (α := Nat) (Except.error ("Unexpected token <"))) 0
      = (Except.error ("Unexpected token <"), [], 1) :=
  appjs.fetchJSON_okBody _ 0 _ rfl

/-- C2 amended: at most 3 underlying fetch attempts; errors thrown inside the
`try` (transport failures and non-2xx statuses) are retried after the next
delay from the table, so two thrown failures followed by a success resolve
with the success after exactly 3 calls and delays 500 then 1200, and three
thrown failures reject with the last error; the retry decision depends only
on whether attempts threw, never on the error's kind or content; but a parse
failure of an OK response is never retried — it settles after that single
call. -/
theorem C2_retry_ladder_amended {α : Type} (oracle o1 o2 : Nat → appjs.FetchOutcome α) :
    (appjs.fetchJSON oracle 0).2.2 ≤ 3
    ∧ (∀ (e0 e1 : String) (v : α),
         appjs.attemptError (oracle 0) = some e0 → appjs.attemptError (oracle 1) = some e1 →
         oracle 2 = .okBody (.ok v) →
         appjs.fetchJSON oracle 0 = (.ok v, [500, 1200], 3))
    ∧ (∀ e0 e1 e2 : String,
         appjs.attemptError (oracle 0) = some e0 → appjs.attemptError (oracle 1) = some e1 →
         appjs.attemptError (oracle 2) = some e2 →
         appjs.fetchJSON oracle 0 = (.error e2, [500, 1200], 3))
    ∧ ((∀ i, appjs.retriable (o1 i) = appjs.retriable (o2 i)) →
         (appjs.fetchJSON o1 0).2.2 = (appjs.fetchJSON o2 0).2.2)
    ∧ (∀ perr : String, oracle 0 = .okBody (.error perr) →
         appjs.fetchJSON oracle 0 = (.error perr, [], 1)) := by
  refine ⟨?_, ?_, ?_, ?_, ?_⟩
  · rw [appjs.fetchJSON_calls_0]
    cases appjs.retriable (oracle 0) <;> cases appjs.retriable (oracle 1) <;> simp
  · intro e0 e1 v h0 h1 h2
    rw [appjs.fetchJSON_retry oracle 0 (by decide) (appjs.retriable_of_attemptError _ _ h0),
        appjs.fetchJSON_retry oracle 1 (by decide) (appjs.retriable_of_attemptError _ _ h1),
        appjs.fetchJSON_okBody oracle 2 (.ok v) h2]
    rfl
  · intro e0 e1 e2 h0 h1 h2
    rw [appjs.fetchJSON_retry oracle 0 (by decide) (appjs.retriable_of_attemptError _ _ h0),
        appjs.fetchJSON_retry oracle 1 (by decide) (appjs.retriable_of_attemptError _ _ h1),
        appjs.fetchJSON_last oracle 2 (by decide) e2 h2]
    rfl
  · intro hsel
    rw [appjs.fetchJSON_calls_0, appjs.fetchJSON_calls_0, hsel 0, hsel 1]
  · intro perr h0
    exact appjs.fetchJSON_okBody oracle 0 _ h0

/-- Witness for C2 amended: the spec's fail-twice-then-succeed scenario at a
concrete oracle, resolving with the third attempt's payload after exactly 3
calls and the delays 500 then 1200. -/
theorem C2_retry_ladder_amended_witness :
    appjs.fetchJSON appjs.failFailOk 0 = (Except.ok 42, [500, 1200], 3) :=
  (C2_retry_ladder_amended appjs.failFailOk appjs.failFailOk appjs.failFailOk).2.1
    "ECONNRESET" "HTTP 502 bad gateway" 42 rfl rfl rfl


/-- C7: after `loadSports` then `loadBookmakers`, the selection state AND the
select elements' values both equal the spec's restore priority — URL
parameter if offered, else the persisted preference if offered, else the
first offered value, else the hardcoded default — provided the offered keys
are nonempty strings (an empty key would be collapsed by JS truthiness). -/
theorem C7_restore_selection_priority (st : appjs.SelState)
    (sportsData : Option (List appjs.SportEntry)) (booksData : Option (List String))
    (qsSport qsBook rawSport rawBook : Option String)
    (hs : ∀ s ∈ sportsData.getD [], s.key ≠ "")
    (hb : ∀ b ∈ booksData.getD [], b ≠ "") :
    ((appjs.loadBookmakers (appjs.loadSports st sportsData qsSport rawSport)
          booksData qsBook rawBook).selectedSport
       = some (appjs.specPick qsSport (appjs.prefOrNone rawSport)
           ((sportsData.getD []).map appjs.SportEntry.key) appjs.DEFAULT_SPORT))
    ∧ ((appjs.loadBookmakers (appjs.loadSports st sportsData qsSport rawSport)
          booksData qsBook rawBook).sportSelectValue
       = appjs.specPick qsSport (appjs.prefOrNone rawSport)
           ((sportsData.getD []).map appjs.SportEntry.key) appjs.DEFAULT_SPORT)
    ∧ ((appjs.loadBookmakers (appjs.loadSports st sportsData qsSport rawSport)
          booksData qsBook rawBook).selectedBook
       = some (appjs.specPick qsBook (appjs.prefOrNone rawBook)
           (booksData.getD []) appjs.DEFAULT_BOOK))
    ∧ ((appjs.loadBookmakers (appjs.loadSports st sportsData qsSport rawSport)
          booksData qsBook rawBook).bookSelectValue
       = appjs.specPick qsBook (appjs.prefOrNone rawBook)
           (booksData.getD []) appjs.DEFAULT_BOOK) := by
  refine ⟨?_, ?_, ?_, ?_⟩ <;>
    simp [appjs.loadSports, appjs.loadBookmakers,
      pickSport_eq_spec _ _ _ hs, pickBook_eq_spec _ _ _ hb]

/-- Witness for C7: concretely, with two offered sports and two offered
bookmakers, a URL parameter naming the second sport wins over a persisted
preference naming the first, and the persisted bookmaker preference wins when
no URL bookmaker is present — and state and select values agree. -/
theorem C7_restore_selection_priority_witness :
    ((appjs.loadBookmakers
        (appjs.loadSports appjs.selInit
          (some [⟨"baseball_mlb", "MLB"⟩, ⟨"mma_mixed_martial_arts", "MMA"⟩])
          (some ("mma_mixed_martial_arts")) (some ("baseball_mlb")))
        (some ["betonlineag", "draftkings"]) none (some ("draftkings"))).selectedSport
      = some ("mma_mixed_martial_arts"))
    ∧ ((appjs.loadBookmakers
        (appjs.loadSports appjs.selInit
          (some [⟨"baseball_mlb", "MLB"⟩, ⟨"mma_mixed_martial_arts", "MMA"⟩])
          (some ("mma_mixed_martial_arts")) (some ("baseball_mlb")))
        (some ["betonlineag", "draftkings"]) none (some ("draftkings"))).sportSelectValue
      = "mma_mixed_martial_arts")
    ∧ ((appjs.loadBookmakers
        (appjs.loadSports appjs.selInit
          (some [⟨"baseball_mlb", "MLB"⟩, ⟨"mma_mixed_martial_arts", "MMA"⟩])
          (some ("mma_mixed_martial_arts")) (some ("baseball_mlb")))
        (some ["betonlineag", "draftkings"]) none (some ("draftkings"))).selectedBook
      = some ("draftkings"))
    ∧ ((appjs.loadBookmakers
        (appjs.loadSports appjs.selInit
          (some [⟨"baseball_mlb", "MLB"⟩, ⟨"mma_mixed_martial_arts", "MMA"⟩])
          (some ("mma_mixed_martial_arts")) (some ("baseball_mlb")))
        (some ["betonlineag", "draftkings"]) none (some ("draftkings"))).bookSelectValue
      = "draftkings") := by
  have h := C7_restore_selection_priority appjs.selInit
      (some [⟨"baseball_mlb", "MLB"⟩, ⟨"mma_mixed_martial_arts", "MMA"⟩])
      (some ["betonlineag", "draftkings"])
      (some ("mma_mixed_martial_arts")) none (some ("baseball_mlb")) (some ("draftkings"))
      (by decide) (by decide)
  refine ⟨?_, ?_, ?_, ?_⟩
  · rw [h.1]; decide
  · rw [h.2.1]; decide
  · rw [h.2.2.1]; decide
  · rw [h.2.2.2]; decide
